import Mathlib

/-!
Verification of the feature-orchestration pipeline of `bycycle`
(`bycycle/features/features.py`, function `compute_features`).

The embedding models Python values and keyword dictionaries explicitly, so
that in-place mutation of the caller's `burst_detection_kwargs` dictionary
(via `dict.pop`) and the order in which pipeline stages run are observable.
`compute_features` returns a `CallResult` holding a trace of the stages that
executed, the final state of the caller's kwargs object, and the result
(a value or a raised Python exception).

The collaborators `compute_shape_features`, `compute_burst_features`,
`detect_bursts_cycles` and `detect_bursts_df_amp` are part of the repository
but their sources are not available here; they are modelled from the spec at
the level of table schemas and row counts (the spec itself places their
numeric internals out of scope). `pandas.concat` is modelled with its actual
library semantics for `axis=1`.
-/

/-- A Python value as far as this pipeline inspects one: `None`, an integer,
a pair of integers (e.g. `amp_threshes`), a string, or any other object
(opaque, tagged). -/
inductive Val where
  | vNone : Val
  | vInt : Int → Val
  | vPair : Int → Int → Val
  | vStr : String → Val
  | vOther : Nat → Val
deriving DecidableEq, Repr

/-- A Python keyword dictionary: an association list from keys to values.
Keys are unique in a Python dict; the operations below preserve that. -/
abbrev KwDict := List (String × Val)

/-- Membership test `k in d` on a Python dict. -/
def kwContains (d : KwDict) (k : String) : Bool :=
  d.any (fun p => p.1 == k)

/-- Lookup `d[k]` on a Python dict, `none` when the key is absent. -/
def kwGet (d : KwDict) (k : String) : Option Val :=
  (d.find? (fun p => p.1 == k)).map (fun p => p.2)

/-- Removal of a key from a Python dict. -/
def kwErase (d : KwDict) (k : String) : KwDict :=
  d.filter (fun p => !(p.1 == k))

/-- Python `d.pop(k, default)`: returns the stored value (or the default) and
the dictionary after the key is removed. -/
def kwPop (d : KwDict) (k : String) (dflt : Val) : Val × KwDict :=
  match kwGet d k with
  | some v => (v, kwErase d k)
  | none => (dflt, d)

/-- The Python object bound to `burst_detection_kwargs`: the default `None`,
a dict, or any other (non-dict) object. -/
inductive PyKwargs where
  | pyNone : PyKwargs
  | pyDict : KwDict → PyKwargs
  | pyOther : Nat → PyKwargs
deriving DecidableEq, Repr

/-- Python `isinstance(x, dict)`. -/
def PyKwargs.isDict : PyKwargs → Bool
  | .pyDict _ => true
  | _ => false

/-- A raised Python exception, as far as `compute_features` raises one:
`ValueError` for the invalid-method branch, `AttributeError`/`TypeError` for
calling `.pop` on a non-dict object. -/
inductive PyErr where
  | valueError : String → PyErr
  | attributeError : String → PyErr
deriving DecidableEq, Repr

/-- A pandas DataFrame, abstracted to its column names (in order, duplicates
possible) and its row count. The numeric cell values are computed by
collaborators whose internals the spec places out of scope. -/
structure DataFrame where
  cols : List String
  nrows : Nat
deriving DecidableEq, Repr

/-- The `dual_threshold_kwargs` dictionary assembled at lines 112-118 of
`features.py` and handed to `compute_burst_features`. -/
structure DualThresholdKwargs where
  fs : Nat
  f_range : Nat × Nat
  amp_threshes : Val
  filter_kwargs : Val
  n_cycles_min : Val
deriving DecidableEq, Repr

/-- One observable stage of the pipeline, recorded in execution order. -/
inductive Step where
  | shapeExtraction : Step
  | burstComputation : Option DualThresholdKwargs → Step
  | concatenation : Step
  | classifyCycles : KwDict → Step
  | classifyAmp : KwDict → Step
deriving DecidableEq, Repr

/-- The value `compute_features` returns: the feature table alone, or the
feature table together with the cyclepoints table. -/
inductive Ret where
  | single : DataFrame → Ret
  | withSamples : DataFrame → DataFrame → Ret
deriving DecidableEq, Repr

/-- The feature table carried by a return value. -/
def Ret.features : Ret → DataFrame
  | .single df => df
  | .withSamples df _ => df

/-- Whether a return value also carries the cyclepoints table. -/
def Ret.hasSamples : Ret → Bool
  | .single _ => false
  | .withSamples _ _ => true

instance {ε α : Type} [DecidableEq ε] [DecidableEq α] :
    DecidableEq (Except ε α) := fun a b =>
  match a, b with
  | Except.error e, Except.error f =>
      if h : e = f then isTrue (by rw [h])
      else isFalse (fun c => h (Except.error.inj c))
  | Except.error _, Except.ok _ => isFalse (fun c => Except.noConfusion c)
  | Except.ok _, Except.error _ => isFalse (fun c => Except.noConfusion c)
  | Except.ok x, Except.ok y =>
      if h : x = y then isTrue (by rw [h])
      else isFalse (fun c => h (Except.ok.inj c))

/-- Everything observable about one call to `compute_features`: the stages
that ran, the final state of the caller's `burst_detection_kwargs` object
(Python `dict.pop` mutates it in place), and the outcome. -/
structure CallResult where
  trace : List Step
  kwargsAfter : PyKwargs
  result : Except PyErr Ret
deriving DecidableEq, Repr

/-- Column names of the shape-feature table (docstring of
`compute_features`, lines 62-76 of `features.py`). -/
def shapeCols : List String :=
  ["period", "time_decay", "time_rise", "time_peak", "time_trough",
   "volt_decay", "volt_rise", "volt_amp", "volt_peak", "volt_trough",
   "time_rdsym", "time_ptsym", "band_amp"]

/-- Column names of the cyclepoints table (docstring, lines 95-99). -/
def samplesCols : List String :=
  ["sample_peak", "sample_zerox_decay", "sample_zerox_rise",
   "sample_last_trough", "sample_next_trough"]

/-- Modelled from the spec: the Shape Feature Extractor
(`compute_shape_features`, imported at line 5 of `features.py` but not under
src/). Per spec sections 2 and 3 it returns a table of per-cycle shape
metrics and a table of cyclepoints, one row per detected cycle, with the
fixed schemas listed in the docstring. The number of detected cycles is a
deterministic function of the inputs that the spec does not determine; it is
modelled here as the signal length (a stand-in — no claim depends on its
value, only on its determinism and on both tables sharing it). -/
def compute_shape_features (sig : List Int) (fs : Nat) (f_range : Nat × Nat)
    (center_extrema : String) (find_extrema_kwargs : PyKwargs)
    (hilbert_increase_n : Bool) : DataFrame × DataFrame :=
  (⟨shapeCols, sig.length⟩, ⟨samplesCols, sig.length⟩)

/-- Modelled from the spec: the Burst Metric Computer
(`compute_burst_features`, imported at line 6 of `features.py` but not under
src/). Per spec section 4.2 it has two mutually exclusive paths selected by
whether a dual-threshold configuration is supplied: the consistency path
produces the four consistency metrics, the threshold path produces
`burst_fraction`; either way one row per cycle of the input shape table. -/
def compute_burst_features (df_shape df_samples : DataFrame) (sig : List Int)
    (dual_threshold_kwargs : Option DualThresholdKwargs) : DataFrame :=
  match dual_threshold_kwargs with
  | none => ⟨["amplitude_fraction", "amplitude_consistency",
              "period_consistency", "monotonicity"], df_shape.nrows⟩
  | some _ => ⟨["burst_fraction"], df_shape.nrows⟩

/-- Embedding of `pandas.concat((a, b), axis=1)` (line 129 of `features.py`): column-wise
concatenation. pandas performs no column-name collision check — duplicate
names are retained side by side — and aligns rows on the index (for the
default range indexes produced here, the row count is the larger of the
two). -/
def pdConcatAxis1 (a b : DataFrame) : DataFrame :=
  ⟨a.cols ++ b.cols, max a.nrows b.nrows⟩

/-- Modelled from the spec: the Consistency Classifier
(`detect_bursts_cycles`, imported at line 7 of `features.py` but not under
src/). Per spec sections 4.1 and 4.3 it consumes the merged table together
with the remaining keyword configuration and appends the boolean `is_burst`
column; its threshold logic operates on cell values, which are out of scope
here. -/
def detect_bursts_cycles (df : DataFrame) (kwargs : KwDict) : DataFrame :=
  ⟨df.cols ++ ["is_burst"], df.nrows⟩

/-- Modelled from the spec: the Dual-Threshold Classifier
(`detect_bursts_df_amp`, imported at line 7 of `features.py` but not under
src/). Per spec sections 4.1 and 4.4 it consumes the merged table together
with the remaining keyword configuration and appends the boolean `is_burst`
column. -/
def detect_bursts_df_amp (df : DataFrame) (kwargs : KwDict) : DataFrame :=
  ⟨df.cols ++ ["is_burst"], df.nrows⟩

/-- Lines 110-122 of `features.py`: in amplitude mode, assemble
`dual_threshold_kwargs` by popping `amp_threshes` (default `(1, 2)`) and
`filter_kwargs` (default `None`) out of `burst_detection_kwargs` and reading
`n_cycles_min` (default `3`) without removing it. `dict.pop` on the `None`
default (or any non-dict) raises. In any other mode `dual_threshold_kwargs`
is `None` and the kwargs object is untouched. Returns the configuration and
the (possibly mutated) kwargs object. -/
def resolveDualThreshold (fs : Nat) (f_range : Nat × Nat)
    (burst_detection_method : String) (burst_detection_kwargs : PyKwargs) :
    Except PyErr (Option DualThresholdKwargs × PyKwargs) :=
  if burst_detection_method == "amplitude" then
    match burst_detection_kwargs with
    | .pyDict d =>
        let p1 := kwPop d "amp_threshes" (Val.vPair 1 2)
        let p2 := kwPop p1.2 "filter_kwargs" Val.vNone
        let ncm := if kwContains p2.2 "n_cycles_min" then
            (kwGet p2.2 "n_cycles_min").getD (Val.vInt 3)
          else Val.vInt 3
        Except.ok (some ⟨fs, f_range, p1.1, p2.1, ncm⟩, PyKwargs.pyDict p2.2)
    | k => Except.error (PyErr.attributeError "object has no attribute pop")
  else
    Except.ok (none, burst_detection_kwargs)

/-- Line 132 of `features.py`: rebind the local name to an empty dict when
the object is not a dict, so that `**`-unpacking is possible. This rebinds
the local variable only; the caller's object is not altered. -/
def localKwargs : PyKwargs → KwDict
  | .pyDict d => d
  | _ => []

/-- The orchestrator `compute_features` (lines 103-147 of `features.py`),
embedded stage by stage in source order:
shape extraction (103-107), dual-threshold resolution (109-122), burst
metric computation (124-126), concatenation (128-129), local kwargs
normalization (131-133), classifier dispatch on the method string (135-142,
raising `ValueError` on an unrecognized method), and return shaping on
`return_samples` (144-147). -/
def compute_features (sig : List Int) (fs : Nat) (f_range : Nat × Nat)
    (center_extrema : String) (burst_detection_method : String)
    (burst_detection_kwargs : PyKwargs) (find_extrema_kwargs : PyKwargs)
    (hilbert_increase_n : Bool) (return_samples : Bool) : CallResult :=
  let shaped := compute_shape_features sig fs f_range center_extrema
    find_extrema_kwargs hilbert_increase_n
  let df_shape := shaped.1
  let df_samples := shaped.2
  match resolveDualThreshold fs f_range burst_detection_method
      burst_detection_kwargs with
  | Except.error e =>
      ⟨[Step.shapeExtraction], burst_detection_kwargs, Except.error e⟩
  | Except.ok res =>
      let dual := res.1
      let kwargsNow := res.2
      let df_burst := compute_burst_features df_shape df_samples sig dual
      let df_features := pdConcatAxis1 df_shape df_burst
      let bdk := localKwargs kwargsNow
      let trace0 := [Step.shapeExtraction, Step.burstComputation dual,
                     Step.concatenation]
      if burst_detection_method == "cycles" then
        let df2 := detect_bursts_cycles df_features bdk
        ⟨trace0 ++ [Step.classifyCycles bdk], kwargsNow,
         Except.ok (if return_samples then Ret.withSamples df2 df_samples
                    else Ret.single df2)⟩
      else if burst_detection_method == "amplitude" then
        let df2 := detect_bursts_df_amp df_features bdk
        ⟨trace0 ++ [Step.classifyAmp bdk], kwargsNow,
         Except.ok (if return_samples then Ret.withSamples df2 df_samples
                    else Ret.single df2)⟩
      else
        ⟨trace0, kwargsNow,
         Except.error (PyErr.valueError
           "Invalid argument for burst_detection_method. Either cycles or amplitude must be specified.")⟩

/-! ## Helper lemmas about the dictionary operations -/

theorem kwContains_erase_self (d : KwDict) (k : String) :
    kwContains (kwErase d k) k = false := by
  induction d with
  | nil => rfl
  | cons p t ih =>
      by_cases hp : (p.1 == k) = true
      · simp [kwErase, kwContains, hp, ih]
      · simp only [Bool.not_eq_true] at hp
        simp [kwErase, kwContains, hp, ih]

theorem kwContains_erase_ne (d : KwDict) (k k2 : String) (h : k ≠ k2) :
    kwContains (kwErase d k) k2 = kwContains d k2 := by
  induction d with
  | nil => rfl
  | cons p t ih =>
      by_cases hp : (p.1 == k) = true
      · have hpk : p.1 = k := eq_of_beq hp
        have hpk2 : (p.1 == k2) = false := by
          rw [beq_eq_false_iff_ne, hpk]
          exact h
        simpa [kwErase, kwContains, hp, hpk2] using ih
      · simp only [Bool.not_eq_true] at hp
        by_cases hq : (p.1 == k2) = true
        · simp [kwErase, kwContains, hp, hq]
        · simp only [Bool.not_eq_true] at hq
          simpa [kwErase, kwContains, hp, hq] using ih

theorem kwErase_of_get_none (d : KwDict) (k : String)
    (h : kwGet d k = none) : kwErase d k = d := by
  induction d with
  | nil => rfl
  | cons p t ih =>
      by_cases hp : (p.1 == k) = true
      · simp [kwGet, List.find?, hp] at h
      · simp only [Bool.not_eq_true] at hp
        have ht : kwGet t k = none := by
          simpa [kwGet, List.find?, hp] using h
        simp [kwErase, hp, List.filter] at ih ⊢
        exact ih ht

theorem kwPop_snd (d : KwDict) (k : String) (v : Val) :
    (kwPop d k v).2 = kwErase d k := by
  unfold kwPop
  cases h : kwGet d k with
  | some w => rfl
  | none => simpa using (kwErase_of_get_none d k h).symm

/-! ## Claim theorems -/

/-- Whether a call outcome is a raised `ValueError`. -/
def isValueError : Except PyErr Ret → Bool
  | Except.error (PyErr.valueError _) => true
  | _ => false

/-- C1, counterexample. The claim states that an invalid
`burst_detection_method` fails before any extraction work is attempted, with
no shape-feature extraction, burst-metric computation or concatenation
performed. At the concrete invalid method string `"bogus"` the call does
raise a `ValueError`, but its trace shows that shape extraction, burst
computation and concatenation all ran first — refuting the claim. -/
theorem C1_counterexample :
    (compute_features [0, 1, 2] 10 (3, 5) "peak" "bogus" PyKwargs.pyNone
        PyKwargs.pyNone false true).trace
      = [Step.shapeExtraction, Step.burstComputation none, Step.concatenation]
    ∧ isValueError (compute_features [0, 1, 2] 10 (3, 5) "peak" "bogus"
        PyKwargs.pyNone PyKwargs.pyNone false true).result = true :=
  ⟨rfl, rfl⟩

/-- C1, amended. Any `burst_detection_method` outside
`{cycles, amplitude}` makes the call raise a `ValueError` and return no
table, but only after shape-feature extraction, burst-metric computation
(on the consistency path) and table concatenation have all been performed;
no classification is performed and the kwargs object is left unchanged. -/
theorem C1_amended_invalid_method_errors_after_extraction (sig : List Int)
    (fs : Nat) (f_range : Nat × Nat) (ce bdm : String) (bdk fek : PyKwargs)
    (hin rs : Bool) (h1 : bdm ≠ "cycles") (h2 : bdm ≠ "amplitude") :
    (compute_features sig fs f_range ce bdm bdk fek hin rs).trace
      = [Step.shapeExtraction, Step.burstComputation none, Step.concatenation]
    ∧ isValueError
        (compute_features sig fs f_range ce bdm bdk fek hin rs).result = true
    ∧ (compute_features sig fs f_range ce bdm bdk fek hin rs).kwargsAfter
        = bdk := by
  have e1 : (bdm == "cycles") = false := beq_eq_false_iff_ne.mpr h1
  have e2 : (bdm == "amplitude") = false := beq_eq_false_iff_ne.mpr h2
  unfold compute_features resolveDualThreshold
  simp [e1, e2, isValueError]

/-- C1, witness for the amended theorem at the invalid method `"bogus"`. -/
theorem C1_witness :
    (compute_features [0] 1 (1, 2) "peak" "bogus" PyKwargs.pyNone
        PyKwargs.pyNone false true).trace
      = [Step.shapeExtraction, Step.burstComputation none, Step.concatenation]
    ∧ isValueError (compute_features [0] 1 (1, 2) "peak" "bogus"
        PyKwargs.pyNone PyKwargs.pyNone false true).result = true
    ∧ (compute_features [0] 1 (1, 2) "peak" "bogus" PyKwargs.pyNone
        PyKwargs.pyNone false true).kwargsAfter = PyKwargs.pyNone :=
  C1_amended_invalid_method_errors_after_extraction [0] 1 (1, 2) "peak"
    "bogus" PyKwargs.pyNone PyKwargs.pyNone false true
    (by decide) (by decide)

/-- C2. The claim is right about the defaults — with an empty kwargs dict
the resolved dual-threshold configuration is `amp_threshes = (1, 2)`,
`filter_kwargs = None`, `n_cycles_min = 3` — but wrong that resolution
succeeds when `burst_detection_kwargs` is omitted (its documented `None`
default): the code calls `.pop` on `None` and raises `AttributeError`
after shape extraction. This contradicts the function docstring, which
documents `burst_detection_kwargs : dict, optional, default: None` for both
methods, so the code, not the claim, is at fault. -/
theorem C2_defaults_resolved_but_none_kwargs_raises :
    resolveDualThreshold 10 (3, 5) "amplitude" (PyKwargs.pyDict [])
      = Except.ok
          (some ⟨10, (3, 5), Val.vPair 1 2, Val.vNone, Val.vInt 3⟩,
           PyKwargs.pyDict [])
    ∧ (compute_features [0, 1] 10 (3, 5) "peak" "amplitude" PyKwargs.pyNone
          PyKwargs.pyNone false true).result
      = Except.error (PyErr.attributeError "object has no attribute pop")
    ∧ (compute_features [0, 1] 10 (3, 5) "peak" "amplitude" PyKwargs.pyNone
          PyKwargs.pyNone false true).trace = [Step.shapeExtraction] :=
  ⟨rfl, rfl, rfl⟩

/-- C3, counterexample. The claim states that all three of `amp_threshes`,
`filter_kwargs` and `n_cycles_min` are removed from the kwargs before
dispatch. At the concrete call below the classifier is invoked with a kwargs
dictionary that still contains `n_cycles_min` (line 117 of `features.py`
reads the key without popping it), refuting the claim. -/
theorem C3_counterexample :
    (compute_features [0, 1] 10 (3, 5) "peak" "amplitude"
        (PyKwargs.pyDict [("n_cycles_min", Val.vInt 4)]) PyKwargs.pyNone
        false true).trace
      = [Step.shapeExtraction,
         Step.burstComputation
           (some ⟨10, (3, 5), Val.vPair 1 2, Val.vNone, Val.vInt 4⟩),
         Step.concatenation,
         Step.classifyAmp [("n_cycles_min", Val.vInt 4)]]
    ∧ kwContains [("n_cycles_min", Val.vInt 4)] "n_cycles_min" = true :=
  ⟨rfl, rfl⟩

/-- C3, amended. In amplitude mode with a kwargs dictionary,
`amp_threshes` and `filter_kwargs` are removed before dispatch, but
`n_cycles_min` is only read, not removed: the kwargs passed to
`detect_bursts_df_amp` contain neither of the first two keys yet contain
`n_cycles_min` exactly when the caller supplied it. -/
theorem C3_amended_two_keys_removed_one_kept (sig : List Int) (fs : Nat)
    (fr : Nat × Nat) (ce : String) (d : KwDict) (fek : PyKwargs)
    (hin rs : Bool) :
    Step.classifyAmp (kwErase (kwErase d "amp_threshes") "filter_kwargs")
      ∈ (compute_features sig fs fr ce "amplitude" (PyKwargs.pyDict d) fek
          hin rs).trace
    ∧ kwContains (kwErase (kwErase d "amp_threshes") "filter_kwargs")
        "amp_threshes" = false
    ∧ kwContains (kwErase (kwErase d "amp_threshes") "filter_kwargs")
        "filter_kwargs" = false
    ∧ kwContains (kwErase (kwErase d "amp_threshes") "filter_kwargs")
        "n_cycles_min" = kwContains d "n_cycles_min" := by
  refine ⟨?_, ?_, ?_, ?_⟩
  · unfold compute_features resolveDualThreshold
    simp [kwPop_snd, localKwargs]
  · rw [kwContains_erase_ne _ _ _ (by decide)]
    exact kwContains_erase_self d "amp_threshes"
  · exact kwContains_erase_self _ "filter_kwargs"
  · rw [kwContains_erase_ne _ _ _ (by decide),
        kwContains_erase_ne _ _ _ (by decide)]

/-- C4, counterexample. The claim states that the column-wise concatenation
fails whenever the two tables share a column name. At the concrete tables
below, which share the column `x`, the embedded `pandas.concat` semantics
succeed and return a table with the name duplicated — pandas performs no
collision check — refuting the claim. -/
theorem C4_counterexample :
    "x" ∈ (DataFrame.mk ["x"] 2).cols
    ∧ "x" ∈ (DataFrame.mk ["x", "y"] 2).cols
    ∧ pdConcatAxis1 (DataFrame.mk ["x"] 2) (DataFrame.mk ["x", "y"] 2)
        = DataFrame.mk ["x", "x", "y"] 2
    ∧ ¬ (pdConcatAxis1 (DataFrame.mk ["x"] 2)
          (DataFrame.mk ["x", "y"] 2)).cols.Nodup := by
  refine ⟨by decide, by decide, rfl, by decide⟩

/-- C4, amended. The concatenation step performs no collision check and
would silently produce duplicated column names on colliding inputs; however
the shape and burst schemas are disjoint in each mode, so every feature
table actually returned by `compute_features` has pairwise-distinct column
names. -/
theorem C4_amended_returned_cols_distinct (sig : List Int) (fs : Nat)
    (fr : Nat × Nat) (ce bdm : String) (bdk fek : PyKwargs) (hin rs : Bool)
    (r : Ret)
    (hr : (compute_features sig fs fr ce bdm bdk fek hin rs).result
          = Except.ok r) :
    r.features.cols.Nodup := by
  by_cases hc : bdm = "cycles"
  · subst hc
    unfold compute_features resolveDualThreshold at hr
    simp at hr
    cases rs <;> simp at hr <;> subst hr <;>
      simp only [Ret.features, detect_bursts_cycles, pdConcatAxis1,
        compute_burst_features, compute_shape_features] <;> decide
  · by_cases ha : bdm = "amplitude"
    · subst ha
      cases bdk with
      | pyNone => unfold compute_features resolveDualThreshold at hr; simp at hr
      | pyOther t => unfold compute_features resolveDualThreshold at hr; simp at hr
      | pyDict d =>
          unfold compute_features resolveDualThreshold at hr
          simp at hr
          cases rs <;> simp at hr <;> subst hr <;>
            simp only [Ret.features, detect_bursts_df_amp, pdConcatAxis1,
              compute_burst_features, compute_shape_features] <;> decide
    · have e1 : (bdm == "cycles") = false := beq_eq_false_iff_ne.mpr hc
      have e2 : (bdm == "amplitude") = false := beq_eq_false_iff_ne.mpr ha
      unfold compute_features resolveDualThreshold at hr
      simp [e1, e2] at hr

/-- C4, witness for the amended theorem: the table returned by a concrete
cycles-mode call has pairwise-distinct column names. -/
theorem C4_witness :
    (Ret.single (DataFrame.mk (shapeCols ++ ["amplitude_fraction",
        "amplitude_consistency", "period_consistency", "monotonicity",
        "is_burst"]) 1)).features.cols.Nodup :=
  C4_amended_returned_cols_distinct [0] 10 (3, 5) "peak" "cycles"
    PyKwargs.pyNone PyKwargs.pyNone false false _ rfl

/-- C5, counterexample. The claim states that no argument is mutated. In
amplitude mode `dict.pop` (lines 115-116 of `features.py`) mutates the
caller's `burst_detection_kwargs` in place: after the concrete call below
the dictionary has lost its `amp_threshes` entry, refuting the claim. -/
theorem C5_counterexample :
    (compute_features [0] 10 (3, 5) "peak" "amplitude"
        (PyKwargs.pyDict [("amp_threshes", Val.vPair 5 9)]) PyKwargs.pyNone
        false true).kwargsAfter
      ≠ PyKwargs.pyDict [("amp_threshes", Val.vPair 5 9)] := by decide

/-- C5, amended. No argument other than `burst_detection_kwargs` is ever
mutated, and `burst_detection_kwargs` itself is left unchanged in every mode
other than amplitude, and in amplitude mode when it is not a dict; but in
amplitude mode with a dict, the `amp_threshes` and `filter_kwargs` entries
are popped out of the caller's dictionary in place (`n_cycles_min` is left
in). -/
theorem C5_amended_kwargs_mutated_only_in_amplitude (sig : List Int)
    (fs : Nat) (fr : Nat × Nat) (ce bdm : String) (bdk fek : PyKwargs)
    (hin rs : Bool) :
    (bdm ≠ "amplitude" →
      (compute_features sig fs fr ce bdm bdk fek hin rs).kwargsAfter = bdk)
    ∧ (∀ d : KwDict, bdk = PyKwargs.pyDict d →
        (compute_features sig fs fr ce "amplitude" bdk fek hin rs).kwargsAfter
          = PyKwargs.pyDict (kwErase (kwErase d "amp_threshes")
              "filter_kwargs"))
    ∧ (bdk.isDict = false →
        (compute_features sig fs fr ce "amplitude" bdk fek hin rs).kwargsAfter
          = bdk) := by
  refine ⟨?_, ?_, ?_⟩
  · intro h
    have e2 : (bdm == "amplitude") = false := beq_eq_false_iff_ne.mpr h
    unfold compute_features resolveDualThreshold
    simp [e2]
    split <;> rfl
  · intro d hd
    subst hd
    unfold compute_features resolveDualThreshold
    simp [kwPop_snd]
  · intro h
    cases bdk with
    | pyNone => rfl
    | pyOther t => rfl
    | pyDict d => simp [PyKwargs.isDict] at h

/-- C5, witness for the amended theorem: a concrete cycles-mode call leaves
the caller's kwargs dictionary unchanged. -/
theorem C5_witness :
    (compute_features [0] 1 (1, 2) "peak" "cycles"
        (PyKwargs.pyDict [("x", Val.vInt 1)]) PyKwargs.pyNone false
        true).kwargsAfter
      = PyKwargs.pyDict [("x", Val.vInt 1)] :=
  (C5_amended_kwargs_mutated_only_in_amplitude [0] 1 (1, 2) "peak" "cycles"
    (PyKwargs.pyDict [("x", Val.vInt 1)]) PyKwargs.pyNone false true).1
    (by decide)

/-- C6. The `return_samples` flag changes only the returned structure:
the computed feature table (and any raised error), the executed stages and
the final kwargs state are identical whether or not cyclepoints are
returned; with the flag set the value carries the cyclepoints table, with it
unset it does not. -/
theorem C6_return_flag_changes_only_structure (sig : List Int) (fs : Nat)
    (fr : Nat × Nat) (ce bdm : String) (bdk fek : PyKwargs) (hin : Bool) :
    (compute_features sig fs fr ce bdm bdk fek hin true).result.map
        Ret.features
      = (compute_features sig fs fr ce bdm bdk fek hin false).result.map
          Ret.features
    ∧ (compute_features sig fs fr ce bdm bdk fek hin true).result.map
        Ret.hasSamples
      = (compute_features sig fs fr ce bdm bdk fek hin true).result.map
          (fun _ => true)
    ∧ (compute_features sig fs fr ce bdm bdk fek hin false).result.map
        Ret.hasSamples
      = (compute_features sig fs fr ce bdm bdk fek hin false).result.map
          (fun _ => false)
    ∧ (compute_features sig fs fr ce bdm bdk fek hin true).trace
      = (compute_features sig fs fr ce bdm bdk fek hin false).trace
    ∧ (compute_features sig fs fr ce bdm bdk fek hin true).kwargsAfter
      = (compute_features sig fs fr ce bdm bdk fek hin false).kwargsAfter := by
  unfold compute_features
  cases hres : resolveDualThreshold fs fr bdm bdk with
  | error e => simp [Except.map]
  | ok p =>
      by_cases hc : (bdm == "cycles") = true
      · simp [hc, Except.map, Ret.features, Ret.hasSamples]
      · simp only [Bool.not_eq_true] at hc
        by_cases ha : (bdm == "amplitude") = true
        · simp [hc, ha, Except.map, Ret.features, Ret.hasSamples]
        · simp only [Bool.not_eq_true] at ha
          simp [hc, ha, Except.map]

/-- C7. The shape-feature table, the burst-metric table and the concatenated
table all have the same row count, and the feature table actually returned
by a successful call keeps that row count (rows are positional, so row `i`
of each table refers to cycle `i`). -/
theorem C7_row_counts_agree (sig : List Int) (fs : Nat) (fr : Nat × Nat)
    (ce bdm : String) (bdk fek : PyKwargs) (hin rs : Bool)
    (dual : Option DualThresholdKwargs) (r : Ret)
    (hr : (compute_features sig fs fr ce bdm bdk fek hin rs).result
          = Except.ok r) :
    ((compute_shape_features sig fs fr ce fek hin).1).nrows
      = (compute_burst_features
          (compute_shape_features sig fs fr ce fek hin).1
          (compute_shape_features sig fs fr ce fek hin).2 sig dual).nrows
    ∧ (pdConcatAxis1 (compute_shape_features sig fs fr ce fek hin).1
        (compute_burst_features
          (compute_shape_features sig fs fr ce fek hin).1
          (compute_shape_features sig fs fr ce fek hin).2 sig dual)).nrows
      = ((compute_shape_features sig fs fr ce fek hin).1).nrows
    ∧ r.features.nrows
      = ((compute_shape_features sig fs fr ce fek hin).1).nrows := by
  refine ⟨?_, ?_, ?_⟩
  · cases dual <;> rfl
  · cases dual <;>
      simp [pdConcatAxis1, compute_burst_features, compute_shape_features]
  · by_cases hc : bdm = "cycles"
    · subst hc
      unfold compute_features resolveDualThreshold at hr
      simp at hr
      cases rs <;> simp at hr <;> subst hr <;>
        simp [Ret.features, detect_bursts_cycles, pdConcatAxis1,
          compute_burst_features, compute_shape_features]
    · by_cases ha : bdm = "amplitude"
      · subst ha
        cases bdk with
        | pyNone =>
            unfold compute_features resolveDualThreshold at hr; simp at hr
        | pyOther t =>
            unfold compute_features resolveDualThreshold at hr; simp at hr
        | pyDict d =>
            unfold compute_features resolveDualThreshold at hr
            simp at hr
            cases rs <;> simp at hr <;> subst hr <;>
              simp [Ret.features, detect_bursts_df_amp, pdConcatAxis1,
                compute_burst_features, compute_shape_features]
      · have e1 : (bdm == "cycles") = false := beq_eq_false_iff_ne.mpr hc
        have e2 : (bdm == "amplitude") = false := beq_eq_false_iff_ne.mpr ha
        unfold compute_features resolveDualThreshold at hr
        simp [e1, e2] at hr

/-- C7, witness for the theorem at a concrete cycles-mode call. -/
theorem C7_witness :
    ((compute_shape_features [0, 1] 10 (3, 5) "peak" PyKwargs.pyNone
        false).1).nrows
      = (compute_burst_features
          (compute_shape_features [0, 1] 10 (3, 5) "peak" PyKwargs.pyNone
            false).1
          (compute_shape_features [0, 1] 10 (3, 5) "peak" PyKwargs.pyNone
            false).2 [0, 1] none).nrows
    ∧ (pdConcatAxis1
        (compute_shape_features [0, 1] 10 (3, 5) "peak" PyKwargs.pyNone
          false).1
        (compute_burst_features
          (compute_shape_features [0, 1] 10 (3, 5) "peak" PyKwargs.pyNone
            false).1
          (compute_shape_features [0, 1] 10 (3, 5) "peak" PyKwargs.pyNone
            false).2 [0, 1] none)).nrows
      = ((compute_shape_features [0, 1] 10 (3, 5) "peak" PyKwargs.pyNone
          false).1).nrows
    ∧ (Ret.single (DataFrame.mk (shapeCols ++ ["amplitude_fraction",
        "amplitude_consistency", "period_consistency", "monotonicity",
        "is_burst"]) 2)).features.nrows
      = ((compute_shape_features [0, 1] 10 (3, 5) "peak" PyKwargs.pyNone
          false).1).nrows :=
  C7_row_counts_agree [0, 1] 10 (3, 5) "peak" "cycles" PyKwargs.pyNone
    PyKwargs.pyNone false false none _ rfl

/-- C8. `compute_features` is deterministic: two calls whose arguments are
pairwise equal produce equal call results (same trace, same final kwargs
state, same output tables). The embedded code has no hidden state, clock or
randomness, so the result is a function of the arguments alone. -/
theorem C8_deterministic (sig sig2 : List Int) (fs fs2 : Nat)
    (fr fr2 : Nat × Nat) (ce ce2 bdm bdm2 : String)
    (bdk bdk2 fek fek2 : PyKwargs) (hin hin2 rs rs2 : Bool)
    (h1 : sig = sig2) (h2 : fs = fs2) (h3 : fr = fr2) (h4 : ce = ce2)
    (h5 : bdm = bdm2) (h6 : bdk = bdk2) (h7 : fek = fek2) (h8 : hin = hin2)
    (h9 : rs = rs2) :
    compute_features sig fs fr ce bdm bdk fek hin rs
      = compute_features sig2 fs2 fr2 ce2 bdm2 bdk2 fek2 hin2 rs2 := by
  subst h1; subst h2; subst h3; subst h4; subst h5; subst h6; subst h7
  subst h8; subst h9
  rfl

/-- C8, witness for the theorem at a concrete pair of identical calls. -/
theorem C8_witness :
    compute_features [0, 1] 10 (3, 5) "peak" "cycles" PyKwargs.pyNone
        PyKwargs.pyNone false true
      = compute_features [0, 1] 10 (3, 5) "peak" "cycles" PyKwargs.pyNone
          PyKwargs.pyNone false true :=
  C8_deterministic [0, 1] [0, 1] 10 10 (3, 5) (3, 5) "peak" "peak" "cycles"
    "cycles" PyKwargs.pyNone PyKwargs.pyNone PyKwargs.pyNone PyKwargs.pyNone
    false false true true rfl rfl rfl rfl rfl rfl rfl rfl rfl

/-- Whether a step is a dispatch to the Consistency Classifier. -/
def Step.isClassifyCycles : Step → Bool
  | .classifyCycles _ => true
  | _ => false

/-- Whether a step is a dispatch to the Dual-Threshold Classifier. -/
def Step.isClassifyAmp : Step → Bool
  | .classifyAmp _ => true
  | _ => false

/-- C9. Mode dispatch is exclusive and exhaustive. In cycles mode the Burst
Metric Computer runs with no dual-threshold configuration, exactly one
classification step runs and it is the Consistency Classifier with the
remaining (possibly empty) kwargs, and the returned table ends in the
appended `is_burst` column; in amplitude mode (with a kwargs dict, so that
threshold resolution succeeds) the Burst Metric Computer receives the
resolved configuration, the lone classification step is the Dual-Threshold
Classifier with the remaining kwargs, and `is_burst` is again appended. The
two paths are never mixed: neither trace contains the other mode's
classification step. -/
theorem C9_dispatch_exclusive_exhaustive (sig : List Int) (fs : Nat)
    (fr : Nat × Nat) (ce : String) (bdk fek : PyKwargs) (hin rs : Bool)
    (d : KwDict) (cfg : DualThresholdKwargs) (d2 : KwDict)
    (hres : resolveDualThreshold fs fr "amplitude" (PyKwargs.pyDict d)
            = Except.ok (some cfg, PyKwargs.pyDict d2)) :
    (compute_features sig fs fr ce "cycles" bdk fek hin rs).trace
      = [Step.shapeExtraction, Step.burstComputation none,
         Step.concatenation, Step.classifyCycles (localKwargs bdk)]
    ∧ ((compute_features sig fs fr ce "cycles" bdk fek hin rs).trace.countP
        (fun s => s.isClassifyAmp)) = 0
    ∧ (compute_features sig fs fr ce "cycles" bdk fek hin rs).result.map
        (fun r => r.features.cols.getLast?) = Except.ok (some "is_burst")
    ∧ (compute_features sig fs fr ce "amplitude" (PyKwargs.pyDict d) fek hin
        rs).trace
      = [Step.shapeExtraction, Step.burstComputation (some cfg),
         Step.concatenation, Step.classifyAmp d2]
    ∧ ((compute_features sig fs fr ce "amplitude" (PyKwargs.pyDict d) fek hin
        rs).trace.countP (fun s => s.isClassifyCycles)) = 0
    ∧ (compute_features sig fs fr ce "amplitude" (PyKwargs.pyDict d) fek hin
        rs).result.map (fun r => r.features.cols.getLast?)
      = Except.ok (some "is_burst") := by
  unfold resolveDualThreshold at hres
  simp at hres
  refine ⟨?_, ?_, ?_, ?_, ?_, ?_⟩
  · unfold compute_features resolveDualThreshold
    simp
  · unfold compute_features resolveDualThreshold
    simp [List.countP, List.countP.go, Step.isClassifyAmp]
  · unfold compute_features resolveDualThreshold
    cases rs <;>
      simp [Except.map, Ret.features, detect_bursts_cycles, pdConcatAxis1,
        compute_burst_features, compute_shape_features,
        List.getLast?_append_cons]
  · unfold compute_features resolveDualThreshold
    simp [kwPop_snd, localKwargs, ← hres.1, ← hres.2]
  · unfold compute_features resolveDualThreshold
    simp [List.countP, List.countP.go, Step.isClassifyCycles]
  · unfold compute_features resolveDualThreshold
    cases rs <;>
      simp [Except.map, Ret.features, detect_bursts_df_amp, pdConcatAxis1,
        compute_burst_features, compute_shape_features,
        List.getLast?_append_cons]

/-- C9, witness for the theorem at a concrete pair of calls (empty kwargs
dict in amplitude mode, which resolves to the default configuration). -/
theorem C9_witness :
    (compute_features [0, 1] 10 (3, 5) "peak" "cycles" PyKwargs.pyNone
        PyKwargs.pyNone false true).trace
      = [Step.shapeExtraction, Step.burstComputation none,
         Step.concatenation, Step.classifyCycles (localKwargs PyKwargs.pyNone)]
    ∧ ((compute_features [0, 1] 10 (3, 5) "peak" "cycles" PyKwargs.pyNone
        PyKwargs.pyNone false true).trace.countP
        (fun s => s.isClassifyAmp)) = 0
    ∧ (compute_features [0, 1] 10 (3, 5) "peak" "cycles" PyKwargs.pyNone
        PyKwargs.pyNone false true).result.map
        (fun r => r.features.cols.getLast?) = Except.ok (some "is_burst")
    ∧ (compute_features [0, 1] 10 (3, 5) "peak" "amplitude"
        (PyKwargs.pyDict []) PyKwargs.pyNone false true).trace
      = [Step.shapeExtraction,
         Step.burstComputation
           (some ⟨10, (3, 5), Val.vPair 1 2, Val.vNone, Val.vInt 3⟩),
         Step.concatenation, Step.classifyAmp []]
    ∧ ((compute_features [0, 1] 10 (3, 5) "peak" "amplitude"
        (PyKwargs.pyDict []) PyKwargs.pyNone false true).trace.countP
        (fun s => s.isClassifyCycles)) = 0
    ∧ (compute_features [0, 1] 10 (3, 5) "peak" "amplitude"
        (PyKwargs.pyDict []) PyKwargs.pyNone false true).result.map
        (fun r => r.features.cols.getLast?) = Except.ok (some "is_burst") :=
  C9_dispatch_exclusive_exhaustive [0, 1] 10 (3, 5) "peak" PyKwargs.pyNone
    PyKwargs.pyNone false true []
    ⟨10, (3, 5), Val.vPair 1 2, Val.vNone, Val.vInt 3⟩ [] rfl

/-- C10. In cycles mode a non-dict `burst_detection_kwargs` — including the
`None` default — is silently replaced by an empty dict before dispatch
(line 132 of `features.py`): the Consistency Classifier is invoked with
empty kwargs (so its own defaults apply), no error is raised, and the
caller's object is untouched. -/
theorem C10_nondict_kwargs_replaced_by_empty (sig : List Int) (fs : Nat)
    (fr : Nat × Nat) (ce : String) (bdk fek : PyKwargs) (hin rs : Bool)
    (h : bdk.isDict = false) :
    Step.classifyCycles []
      ∈ (compute_features sig fs fr ce "cycles" bdk fek hin rs).trace
    ∧ (compute_features sig fs fr ce "cycles" bdk fek hin rs).result.map
        (fun _ => true) = Except.ok true
    ∧ (compute_features sig fs fr ce "cycles" bdk fek hin rs).kwargsAfter
      = bdk := by
  cases bdk with
  | pyDict d => simp [PyKwargs.isDict] at h
  | pyNone =>
      refine ⟨?_, ?_, rfl⟩
      · unfold compute_features resolveDualThreshold
        simp [localKwargs]
      · unfold compute_features resolveDualThreshold
        cases rs <;> simp [Except.map]
  | pyOther t =>
      refine ⟨?_, ?_, rfl⟩
      · unfold compute_features resolveDualThreshold
        simp [localKwargs]
      · unfold compute_features resolveDualThreshold
        cases rs <;> simp [Except.map]

/-- C10, witness for the theorem at the `None` default. -/
theorem C10_witness :
    Step.classifyCycles []
      ∈ (compute_features [0] 1 (1, 2) "peak" "cycles" PyKwargs.pyNone
          PyKwargs.pyNone false true).trace
    ∧ (compute_features [0] 1 (1, 2) "peak" "cycles" PyKwargs.pyNone
        PyKwargs.pyNone false true).result.map (fun _ => true)
      = Except.ok true
    ∧ (compute_features [0] 1 (1, 2) "peak" "cycles" PyKwargs.pyNone
        PyKwargs.pyNone false true).kwargsAfter = PyKwargs.pyNone :=
  C10_nondict_kwargs_replaced_by_empty [0] 1 (1, 2) "peak" PyKwargs.pyNone
    PyKwargs.pyNone false true (by decide)
